import Mathlib

/-!
Verification development for the arXiv paper crawler (src/).

The Python modules are shallowly embedded as Lean definitions:

* `src/utils.py`      → `arxiv_id_to_folder_name`, `generate_paper_ids`
* `src/scraper.py`    → `RateLimiter.executeStep`/`runLimiter`,
                        `getVersionDates`, `downloadAndExtractVersion`,
                        `get_references`, `processPaperRun`
* `src/statistics.py` → `Statistics`, `applyStatOp`, `runStatOps`

External effects (HTTP responses, page scrapes, the wall clock) are inputs
of the embedded functions; Python exceptions become `Option`/`Except`
values, and the exception-handling structure of the source is mirrored in
the control flow of the definitions.
-/

namespace Crawler

/-! ### utils.py -/

/-- `arxiv_id_to_folder_name` (utils.py line 5): `arxiv_id.replace('.', '-')`. -/
def arxiv_id_to_folder_name (arxivId : String) : String :=
  (arxivId.data.map (fun c => if c = '.' then '-' else c)).asString

/-- Python `str.split(sep)` for a one-character separator, on character
lists (structural recursion, so the kernel can evaluate it). -/
def splitOnChar (sep : Char) : List Char → List (List Char)
  | [] => [[]]
  | c :: rest =>
    match splitOnChar sep rest with
    | [] => [[c]]
    | h :: t => if c = sep then [] :: h :: t else (c :: h) :: t

/-- Python `s.split(sep)` for a one-character separator. -/
def pySplit (s : String) (sep : Char) : List String :=
  (splitOnChar sep s.data).map List.asString

/-- Little-endian-free decimal digit characters of `n` (most significant
first), with explicit fuel so the recursion is structural;
`decChars f 0 = []`.  `f ≥ n` suffices for fuel. -/
def decChars : Nat → Nat → List Char
  | 0, _ => []
  | _, 0 => []
  | f + 1, v + 1 => decChars f ((v + 1) / 10) ++ [Char.ofNat (48 + (v + 1) % 10)]

/-- Decimal digit string of a natural number (`decimalString 0 = ""`,
which the padding below turns into `"00000"`, matching `f"{0:05d}"`). -/
def decimalString (n : Nat) : String :=
  (decChars n n).asString

/-- Left-pad a digit string with `'0'` up to width `w`
(the padding part of Python's `f"{num:0wd}"`). -/
def padZeros (w : Nat) (s : String) : String :=
  if s.length < w then (List.replicate (w - s.length) '0').asString ++ s else s

/-- Python `f"{num:05d}"` for an integer `num` (a negative sign counts
toward the width, as in CPython's format spec). -/
def pythonFormat05d (i : Int) : String :=
  if i < 0 then "-" ++ padZeros 4 (decimalString (-i).toNat)
  else padZeros 5 (decimalString i.toNat)

/-- The whitespace characters Python's `str.strip()` and `int()` ignore
(ASCII part). -/
def isPyWhitespace (c : Char) : Bool :=
  c = ' ' || c = '\t' || c = '\n' || c = '\r' || c = '\x0b' || c = '\x0c'

/-- `some n` when the characters are one or more decimal digits. -/
def natOfDigits? (l : List Char) : Option Nat :=
  if l ≠ [] && l.all Char.isDigit then
    some (l.foldl (fun a c => 10 * a + (c.toNat - 48)) 0)
  else none

/-- Python `int(s)` on a string: strip whitespace, optional sign, decimal
digits; `none` models the `ValueError` raised on anything else. -/
def pythonIntOfString (s : String) : Option Int :=
  match (s.data.dropWhile isPyWhitespace).reverse.dropWhile isPyWhitespace |>.reverse with
  | '-' :: rest => (natOfDigits? rest).map (fun n => -(n : Int))
  | '+' :: rest => (natOfDigits? rest).map (fun n => (n : Int))
  | t => (natOfDigits? t).map (fun n => (n : Int))

/-- Python `range(a, b)` as a list of integers. -/
def pyRange (a b : Int) : List Int :=
  (List.range (b - a).toNat).map (fun k : Nat => a + (k : Int))

/-- `generate_paper_ids` (utils.py lines 10–19): split both ids on `'.'`,
take the start id's prefix, and format `prefix.{num:05d}` for every
`num` in `range(start_num, end_num + 1)`.  `none` models the exception
Python raises when a sequence part is absent or not an integer. -/
def generate_paper_ids (startId endId : String) : Option (List String) :=
  match pythonIntOfString ((pySplit startId '.').getD 1 ""),
      pythonIntOfString ((pySplit endId '.').getD 1 "") with
  | some startNum, some endNum =>
      some ((pyRange startNum (endNum + 1)).map
        (fun num => (pySplit startId '.').headD "" ++ "." ++ pythonFormat05d num))
  | _, _ => none

/-! ### scraper.py — RateLimiter

`RateLimiter.execute` (scraper.py lines 26–45) holds `self.lock` across
"measure elapsed → sleep the remainder → call → record `time.time()`",
so concurrent callers are serialized; the serialized trace is modelled as
a list of lock acquisitions, each with the clock value `now` read at
line 33 and the duration of `func()`.  Times are rationals. -/

structure RateLimiter where
  wait_time : ℚ
  last_call_time : ℚ

/-- One serialized passage through `RateLimiter.execute`: the sleep
performed, and the start/end instants of the `func()` call. -/
structure CallEvent where
  sleepDuration : ℚ
  callStart : ℚ
  callEnd : ℚ

/-- One critical section of `RateLimiter.execute`: at clock value `now`,
sleep `wait_time - (now - last_call_time)` if that elapsed time is below
`wait_time`, run the call (taking `callDuration`), then record the
completion time as the new `last_call_time`. -/
def RateLimiter.executeStep (s : RateLimiter) (now callDuration : ℚ) :
    CallEvent × RateLimiter :=
  let timeSinceLast := now - s.last_call_time
  let sleep := if timeSinceLast < s.wait_time then s.wait_time - timeSinceLast else 0
  let callStart := now + sleep
  let callEnd := callStart + callDuration
  (⟨sleep, callStart, callEnd⟩, ⟨s.wait_time, callEnd⟩)

/-- The serialized trace of callers through one limiter: each list entry
is (clock value at lock acquisition, duration of the call). -/
def runLimiter (s : RateLimiter) : List (ℚ × ℚ) → List CallEvent
  | [] => []
  | (now, dur) :: rest =>
      let step := s.executeStep now dur
      step.1 :: runLimiter step.2 rest

/-! ### scraper.py — Semantic Scholar citation client -/

/-- One entry of the `references` list in a Semantic Scholar response.
`arxivExternalId` is `externalIds['ArXiv']` when `externalIds` is a
non-empty dict containing that key (`if external_ids and 'ArXiv' in
external_ids`, scraper.py line 397), else `none`. -/
structure SSRef where
  arxivExternalId : Option String
  title : String
  authors : List String
  publicationDate : String
  paperId : String
deriving DecidableEq

/-- A Semantic Scholar HTTP response: status code plus the parsed
`references`/`venue` fields of its JSON body. -/
structure SSResponse where
  status : Nat
  references : List SSRef
  venue : String
deriving DecidableEq

/-- Result of one `make_api_call` attempt (scraper.py lines 336–342):
either the response, or `.error ()` when `requests.get` raised. -/
def SSAttempt := Except Unit SSResponse

/-- The retry loop of `_get_references` (scraper.py lines 345–385),
structurally recursive on the remaining loop iterations.  `attempt` is
the Python loop index; `attempts` maps each index to that attempt's
result.  Returns `(references, venue, success)`. -/
def getReferencesGo (attempts : Nat → SSAttempt) (maxRetries attempt : Nat) :
    Nat → List SSRef × String × Bool
  | 0 => ([], "", false)
  | remaining + 1 =>
    match attempts attempt with
    | .error _ =>
        if attempt < maxRetries - 1 then
          getReferencesGo attempts maxRetries (attempt + 1) remaining
        else ([], "", false)
    | .ok resp =>
        if resp.status = 200 then (resp.references, resp.venue, true)
        else if resp.status = 429 then
          getReferencesGo attempts maxRetries (attempt + 1) remaining
        else if resp.status = 404 then ([], "", true)
        else if attempt < maxRetries - 1 then
          getReferencesGo attempts maxRetries (attempt + 1) remaining
        else ([], "", false)

/-- `_get_references` (scraper.py lines 324–385): run the retry loop from
attempt 0 with `max_retries` iterations available. -/
def get_references (attempts : Nat → SSAttempt) (maxRetries : Nat) :
    List SSRef × String × Bool :=
  getReferencesGo attempts maxRetries 0 maxRetries

/-- The keys of the `ref_dict` built by `_save_references` (scraper.py
lines 387–415): the folder names of references carrying an arXiv
external id, in first-arrival order (dict insertion; a colliding key
overwrites the value but adds no new key). -/
def saveReferencesKeys (references : List SSRef) : List String :=
  references.foldl (fun keys ref =>
    match ref.arxivExternalId with
    | some arxivId =>
        let folderName := arxiv_id_to_folder_name arxivId
        if keys.contains folderName then keys else keys ++ [folderName]
    | none => keys) []

/-- The value `_save_references` returns: `len(ref_dict)`. -/
def saveReferencesCount (references : List SSRef) : Nat :=
  (saveReferencesKeys references).length

/-! ### scraper.py — version date resolver -/

/-- Case-insensitive literal-prefix match: strip `p` (given lowercase)
from the front of `l`, comparing lowercased characters. -/
def stripPrefixCI : List Char → List Char → Option (List Char)
  | [], l => some l
  | _ :: _, [] => none
  | c :: ps, x :: xs => if x.toLower = c then stripPrefixCI ps xs else none

/-- Match one name of a (name, value) table as a case-insensitive prefix
(the alternation a `%a`/`%b` directive compiles to). -/
def matchName (table : List (String × Nat)) (l : List Char) : Option (Nat × List Char) :=
  match table with
  | [] => none
  | (name, value) :: rest =>
    match stripPrefixCI name.data l with
    | some remaining => some (value, remaining)
    | none => matchName rest l

/-- Abbreviated weekday names accepted by `strptime`'s `%a`. -/
def weekdayTable : List (String × Nat) :=
  [("mon", 0), ("tue", 1), ("wed", 2), ("thu", 3), ("fri", 4), ("sat", 5), ("sun", 6)]

/-- Abbreviated month names accepted by `strptime`'s `%b`. -/
def monthTable : List (String × Nat) :=
  [("jan", 1), ("feb", 2), ("mar", 3), ("apr", 4), ("may", 5), ("jun", 6),
   ("jul", 7), ("aug", 8), ("sep", 9), ("oct", 10), ("nov", 11), ("dec", 12)]

/-- Take up to `maxDigits` leading decimal digits (the `\d\x7b1,k\x7d` a
numeric `strptime` directive compiles to); fails when none. -/
def takeDigits (maxDigits : Nat) (l : List Char) : Option (Nat × List Char) :=
  let ds := (l.take maxDigits).takeWhile Char.isDigit
  if ds = [] then none
  else some (ds.foldl (fun a c => 10 * a + (c.toNat - 48)) 0, l.drop ds.length)

/-- A whitespace run (`\s+`, what a blank in a `strptime` format
matches): at least one whitespace character, then skip the run. -/
def skipSpaces1 (l : List Char) : Option (List Char) :=
  match l with
  | c :: rest => if isPyWhitespace c then some (rest.dropWhile isPyWhitespace) else none
  | [] => none

def isLeapYear (y : Nat) : Bool :=
  y % 4 = 0 && (y % 100 ≠ 0 || y % 400 = 0)

def daysInMonth (y m : Nat) : Nat :=
  if m = 2 then (if isLeapYear y then 29 else 28)
  else if m = 4 || m = 6 || m = 9 || m = 11 then 30
  else 31

def pad2 (n : Nat) : String := padZeros 2 (decimalString n)

def pad4 (n : Nat) : String := padZeros 4 (decimalString n)

/-- `datetime.strptime(date_str, '%a, %d %b %Y')` followed by
`strftime('%Y-%m-%d')` (scraper.py lines 189–190): match an abbreviated
weekday name, a literal comma, whitespace, a 1–2 digit day, whitespace,
an abbreviated month name, whitespace and a 1–4 digit year — the whole
string, case-insensitively — then validate the fields the way the
`datetime` constructor does (year ≥ 1, day in range for the month,
leap years included).  `none` models the `ValueError`. -/
def parseArxivDate (s : String) : Option String := do
  let (_, r) ← matchName weekdayTable s.data
  let r ← match r with
    | ',' :: rest => some rest
    | _ => none
  let r ← skipSpaces1 r
  let (day, r) ← takeDigits 2 r
  let r ← skipSpaces1 r
  let (month, r) ← matchName monthTable r
  let r ← skipSpaces1 r
  let (year, r) ← takeDigits 4 r
  guard (r = [])
  guard (1 ≤ year)
  guard (1 ≤ day ∧ day ≤ daysInMonth year month)
  some (pad4 year ++ "-" ++ pad2 month ++ "-" ++ pad2 day)

/-- `_get_version_dates` (scraper.py lines 172–202).  The HTTP fetch and
the regex scan of the page are external input: `dateFetch = none` models
`requests.get` raising, `dateFetch = some strs` the list of date strings
matched by the pattern.  `strptime` raising on any string (caught by the
same `except`) also yields `[]`; otherwise the parsed dates are returned
exactly when their number equals `numVersions`, else `[]`. -/
def getVersionDates (dateFetch : Option (List String)) (numVersions : Nat) :
    List String :=
  match dateFetch with
  | none => []
  | some datesStr =>
    match datesStr.mapM parseArxivDate with
    | none => []
    | some dates => if dates.length = numVersions then dates else []

/-- The caller-side fallback (scraper.py lines 91–94): when the resolver
returned `[]`, use today's date for every version. -/
def versionDatesWithFallback (dateFetch : Option (List String)) (numVersions : Nat)
    (today : String) : List String :=
  let versionDates := getVersionDates dateFetch numVersions
  if versionDates = [] then List.replicate numVersions today else versionDates

/-! ### scraper.py — archive fetcher -/

/-- Result of `requests.get(download_url, ...)` in
`_download_and_extract_version`: a transport/timeout exception, or a
response with a status code and a body of `contentLen` bytes. -/
inductive FetchResult where
  | netError
  | response (status : Nat) (contentLen : Nat)
deriving DecidableEq

/-- External input of one version's download-and-extract: the archive
GET's result, and the outcome of `_extract_filtered` on the saved
archive (`.error ()` when extraction raised, `.ok sizeAfter` with the
byte size `get_directory_size` then reports for the version dir). -/
structure VersionEnv where
  fetch : FetchResult
  extractOutcome : Except Unit Nat

/-- `_download_and_extract_version` (scraper.py lines 204–258).  First
component: the returned `(size_before, size_after, version_date,
peak_disk_for_version)`, or `.error ()` when an exception propagates to
the caller.  Second component: whether the scratch archive
`/tmp/{version_id}.tar.gz` still exists when the function returns — the
`os.remove` at line 253 runs only on the success path, so an extraction
failure leaves the scratch file behind. -/
def downloadAndExtractVersion (env : VersionEnv) (versionDate today : String) :
    Except Unit (Nat × Nat × String × Nat) × Bool :=
  match env.fetch with
  | .netError => (.error (), false)
  | .response status contentLen =>
    if status ≠ 200 then (.error (), false)
    else
      let vDate := if versionDate = "" then today else versionDate
      match env.extractOutcome with
      | .error _ => (.error (), true)
      | .ok sizeAfter =>
          (.ok (contentLen, sizeAfter, vDate, contentLen + sizeAfter), false)

/-! ### scraper.py — item pipeline (`process_paper`) -/

/-- The slice of the arXiv metadata result `process_paper` branches on:
the canonical entry reference (`paper.entry_id`).  The title/author/
journal fields only flow into the metadata file and never into the
returned outcome. -/
structure Paper where
  entryId : String

/-- The external world one `process_paper` call observes: the metadata
fetch result (`none` when `_get_paper_metadata` returned `None`), the
scraped date strings of the abstract page, today's date, each version's
download/extract behaviour, and the Semantic Scholar attempt results
together with the configured `max_retries`. -/
structure PipelineEnv where
  metadata : Option Paper
  dateFetch : Option (List String)
  today : String
  versionEnv : Nat → VersionEnv
  ssAttempts : Nat → SSAttempt
  maxRetries : Nat

/-- The dictionaries `process_paper` can return (scraper.py lines 78,
131, 138, 148–156, 160), as a tagged type.  `success` carries
`(versions, size_before, size_after, peak_disk, references)`; the
wall-clock `time` entry is not modelled.  The constructor names follow
the `'error'` strings of the source. -/
inductive Outcome where
  | paperNotFound
  | noTexSourcePdfOnly
  | semanticScholarError
  | networkError (details : String)
  | success (versions sizeBefore sizeAfter peakDisk references : Nat)
deriving DecidableEq

/-- The message of the `ValueError` that `int()` raises on a
non-numeric string, which the outer `except` of `process_paper` turns
into `{'error': 'network_error', 'details': str(e)}`. -/
def intParseErrorMsg : String := "invalid literal for int() with base 10"

/-- Version-number extraction (scraper.py lines 81–85): if the entry id
contains the character `'v'`, `int(entry_id.split('v')[-1])` — `none`
when that `int()` raises; otherwise the default `1`. -/
def latestVersionOf (entryId : String) : Option Int :=
  if entryId.data.contains 'v' then
    pythonIntOfString ((pySplit entryId 'v').getLastD "")
  else some 1

/-- `versions = list(range(1, latest_version + 1))` (scraper.py
line 87). -/
def versionsList (latest : Int) : List Nat :=
  (List.range latest.toNat).map (fun k => k + 1)

/-- One iteration of the download loop (scraper.py lines 113–128): the
version's date is `version_dates[idx]` when in range else today; a
successful download adds its sizes, raises the peak, and appends its
date; a failed one is caught and skipped. -/
def versionStep (env : PipelineEnv) (versionDates : List String)
    (acc : Nat × Nat × Nat × List String) (iv : Nat × Nat) :
    Nat × Nat × Nat × List String :=
  let versionDate := versionDates.getD iv.1 env.today
  match (downloadAndExtractVersion (env.versionEnv iv.2) versionDate env.today).1 with
  | .ok r => (acc.1 + r.1, acc.2.1 + r.2.1, max acc.2.2.1 r.2.2.2, acc.2.2.2 ++ [r.2.2.1])
  | .error _ => acc

/-- The accumulated `(size_before, size_after, peak_disk_usage,
all_dates)` after the download loop over versions `1..latest`
(scraper.py lines 108–128). -/
def pipelineVersionTotals (env : PipelineEnv) (latest : Int) :
    Nat × Nat × Nat × List String :=
  let versions := versionsList latest
  let versionDates := versionDatesWithFallback env.dateFetch versions.length env.today
  versions.enum.foldl (versionStep env versionDates) (0, 0, 0, [])

/-- `process_paper` (scraper.py lines 64–160), instrumented: the second
component records whether control reached the `_get_references` call at
line 134 (the citation stage). -/
def processPaperRun (env : PipelineEnv) : Outcome × Bool :=
  match env.metadata with
  | none => (.paperNotFound, false)
  | some paper =>
    match latestVersionOf paper.entryId with
    | none => (.networkError intParseErrorMsg, false)
    | some latest =>
      let totals := pipelineVersionTotals env latest
      if totals.2.1 = 0 then (.noTexSourcePdfOnly, false)
      else
        let refsResult := get_references env.ssAttempts env.maxRetries
        if refsResult.2.2 then
          (.success (versionsList latest).length totals.1 totals.2.1 totals.2.2.1
              (saveReferencesCount refsResult.1), true)
        else (.semanticScholarError, true)

/-- The outcome of `process_paper`. -/
def processPaper (env : PipelineEnv) : Outcome :=
  (processPaperRun env).1

/-! ### statistics.py -/

/-- The nine keys of `error_breakdown` fixed at construction
(statistics.py lines 16–26), in source order. -/
def errorKeys : List String :=
  ["no_tex_source_pdf_only", "missing_versions", "download_timeout",
   "extraction_error", "api_rate_limit", "paper_not_found",
   "semantic_scholar_error", "invalid_archive", "network_error"]

/-- The `error_breakdown` dict.  Its key set is fixed at construction
and never grows (`add_failed_paper` only increments existing keys), so
it is embedded as a record with one counter per key. -/
structure ErrorBreakdown where
  no_tex_source_pdf_only : Nat
  missing_versions : Nat
  download_timeout : Nat
  extraction_error : Nat
  api_rate_limit : Nat
  paper_not_found : Nat
  semantic_scholar_error : Nat
  invalid_archive : Nat
  network_error : Nat
deriving DecidableEq

def ErrorBreakdown.init : ErrorBreakdown :=
  ⟨0, 0, 0, 0, 0, 0, 0, 0, 0⟩

/-- `if error_type in self.stats['error_breakdown']:
self.stats['error_breakdown'][error_type] += 1` (statistics.py
lines 86–87): increment the matching counter, or change nothing when
the kind is not one of the nine keys. -/
def ErrorBreakdown.bump (b : ErrorBreakdown) (errorType : String) : ErrorBreakdown :=
  if errorType = "no_tex_source_pdf_only" then
    { b with no_tex_source_pdf_only := b.no_tex_source_pdf_only + 1 }
  else if errorType = "missing_versions" then
    { b with missing_versions := b.missing_versions + 1 }
  else if errorType = "download_timeout" then
    { b with download_timeout := b.download_timeout + 1 }
  else if errorType = "extraction_error" then
    { b with extraction_error := b.extraction_error + 1 }
  else if errorType = "api_rate_limit" then
    { b with api_rate_limit := b.api_rate_limit + 1 }
  else if errorType = "paper_not_found" then
    { b with paper_not_found := b.paper_not_found + 1 }
  else if errorType = "semantic_scholar_error" then
    { b with semantic_scholar_error := b.semantic_scholar_error + 1 }
  else if errorType = "invalid_archive" then
    { b with invalid_archive := b.invalid_archive + 1 }
  else if errorType = "network_error" then
    { b with network_error := b.network_error + 1 }
  else b

/-- Dict lookup `error_breakdown[k]` for a key `k` (0 for a key outside
the nine, which the dict never holds). -/
def ErrorBreakdown.getKey (b : ErrorBreakdown) (k : String) : Nat :=
  if k = "no_tex_source_pdf_only" then b.no_tex_source_pdf_only
  else if k = "missing_versions" then b.missing_versions
  else if k = "download_timeout" then b.download_timeout
  else if k = "extraction_error" then b.extraction_error
  else if k = "api_rate_limit" then b.api_rate_limit
  else if k = "paper_not_found" then b.paper_not_found
  else if k = "semantic_scholar_error" then b.semantic_scholar_error
  else if k = "invalid_archive" then b.invalid_archive
  else if k = "network_error" then b.network_error
  else 0

/-- `sum(error_breakdown.values())`. -/
def ErrorBreakdown.total (b : ErrorBreakdown) : Nat :=
  b.no_tex_source_pdf_only + b.missing_versions + b.download_timeout +
    b.extraction_error + b.api_rate_limit + b.paper_not_found +
    b.semantic_scholar_error + b.invalid_archive + b.network_error

/-- The `Statistics` object (statistics.py lines 4–62): the `stats` dict
plus the temporary tracking lists.  Numeric dict entries that Python
holds as floats are rationals here (their values never feed back into
the counting fields the claims are about). -/
structure Statistics where
  total_papers : Nat
  successful_papers : Nat
  failed_papers : Nat
  success_rate_percent : ℚ
  error_breakdown : ErrorBreakdown
  total_versions_scraped : Nat
  avg_versions_per_paper : ℚ
  avg_paper_size_before_bytes : Nat
  avg_paper_size_after_bytes : Nat
  total_references_scraped : Nat
  avg_references_per_paper : ℚ
  reference_success_rate_percent : ℚ
  total_runtime_seconds : ℚ
  entry_discovery_time_seconds : ℚ
  avg_time_per_paper_seconds : ℚ
  max_ram_mb : ℚ
  avg_ram_mb : ℚ
  max_cpu_percent : ℚ
  avg_cpu_percent : ℚ
  max_disk_usage_mb : ℚ
  final_output_size_mb : ℚ
  paper_times : List ℚ
  paper_sizes_before : List Nat
  paper_sizes_after : List Nat
  paper_versions : List Nat
  paper_references : List Nat
  paper_peak_disks : List Nat
  papers_with_references : Nat

/-- `Statistics.__init__`. -/
def Statistics.init : Statistics where
  total_papers := 0
  successful_papers := 0
  failed_papers := 0
  success_rate_percent := 0
  error_breakdown := ErrorBreakdown.init
  total_versions_scraped := 0
  avg_versions_per_paper := 0
  avg_paper_size_before_bytes := 0
  avg_paper_size_after_bytes := 0
  total_references_scraped := 0
  avg_references_per_paper := 0
  reference_success_rate_percent := 0
  total_runtime_seconds := 0
  entry_discovery_time_seconds := 0
  avg_time_per_paper_seconds := 0
  max_ram_mb := 0
  avg_ram_mb := 0
  max_cpu_percent := 0
  avg_cpu_percent := 0
  max_disk_usage_mb := 0
  final_output_size_mb := 0
  paper_times := []
  paper_sizes_before := []
  paper_sizes_after := []
  paper_versions := []
  paper_references := []
  paper_peak_disks := []
  papers_with_references := 0

/-- `add_successful_paper` (statistics.py lines 64–81). -/
def Statistics.addSuccessfulPaper (s : Statistics) (versionsCount sizeBefore sizeAfter
    referencesCount : Nat) (processingTime : ℚ) (peakDisk : Nat) : Statistics :=
  { s with
    successful_papers := s.successful_papers + 1
    total_versions_scraped := s.total_versions_scraped + versionsCount
    paper_times := s.paper_times ++ [processingTime]
    paper_sizes_before := s.paper_sizes_before ++ [sizeBefore]
    paper_sizes_after := s.paper_sizes_after ++ [sizeAfter]
    paper_versions := s.paper_versions ++ [versionsCount]
    paper_references := s.paper_references ++ [referencesCount]
    paper_peak_disks := s.paper_peak_disks ++ [peakDisk]
    total_references_scraped := s.total_references_scraped + referencesCount
    papers_with_references :=
      if referencesCount > 0 then s.papers_with_references + 1
      else s.papers_with_references }

/-- `add_failed_paper` (statistics.py lines 83–87). -/
def Statistics.addFailedPaper (s : Statistics) (errorType : String) : Statistics :=
  { s with
    failed_papers := s.failed_papers + 1
    error_breakdown := s.error_breakdown.bump errorType }

/-- `set_total_papers` (statistics.py lines 89–91). -/
def Statistics.setTotalPapers (s : Statistics) (total : Nat) : Statistics :=
  { s with total_papers := total }

/-- `set_timing` (statistics.py lines 93–96). -/
def Statistics.setTiming (s : Statistics) (totalRuntime entryDiscoveryTime : ℚ) :
    Statistics :=
  { s with
    total_runtime_seconds := totalRuntime
    entry_discovery_time_seconds := entryDiscoveryTime }

/-- `set_resources` (statistics.py lines 98–105). -/
def Statistics.setResources (s : Statistics)
    (maxRam avgRam maxCpu avgCpu diskUsage outputSize : ℚ) : Statistics :=
  { s with
    max_ram_mb := maxRam
    avg_ram_mb := avgRam
    max_cpu_percent := maxCpu
    avg_cpu_percent := avgCpu
    max_disk_usage_mb := diskUsage
    final_output_size_mb := outputSize }

/-- `finalize` (statistics.py lines 107–130).  The averages stored as
ints in Python use truncating division of non-negative values, i.e.
`Nat` division. -/
def Statistics.finalizeStats (s : Statistics) : Statistics :=
  let s :=
    if s.total_papers > 0 then
      { s with success_rate_percent :=
          (s.successful_papers : ℚ) / (s.total_papers : ℚ) * 100 }
    else s
  let s :=
    if s.successful_papers > 0 then
      { s with
        avg_versions_per_paper :=
          (s.paper_versions.sum : ℚ) / (s.successful_papers : ℚ)
        avg_references_per_paper :=
          (s.paper_references.sum : ℚ) / (s.successful_papers : ℚ)
        avg_time_per_paper_seconds := s.paper_times.sum / (s.successful_papers : ℚ)
        avg_paper_size_before_bytes := s.paper_sizes_before.sum / s.successful_papers
        avg_paper_size_after_bytes := s.paper_sizes_after.sum / s.successful_papers }
    else s
  let s :=
    if s.successful_papers > 0 then
      { s with reference_success_rate_percent :=
          (s.papers_with_references : ℚ) / (s.successful_papers : ℚ) * 100 }
    else s
  if s.paper_peak_disks ≠ [] then
    { s with max_disk_usage_mb :=
        ((s.paper_peak_disks.foldl max 0 : Nat) : ℚ) / (1024 * 1024) }
  else s

/-- One public mutation of a `Statistics` instance. -/
inductive StatOp where
  | addSuccessfulPaper (versionsCount sizeBefore sizeAfter referencesCount : Nat)
      (processingTime : ℚ) (peakDisk : Nat)
  | addFailedPaper (errorType : String)
  | setTotalPapers (total : Nat)
  | setTiming (totalRuntime entryDiscoveryTime : ℚ)
  | setResources (maxRam avgRam maxCpu avgCpu diskUsage outputSize : ℚ)
  | finalizeStats

def applyStatOp (s : Statistics) : StatOp → Statistics
  | .addSuccessfulPaper v sb sa r t p => s.addSuccessfulPaper v sb sa r t p
  | .addFailedPaper e => s.addFailedPaper e
  | .setTotalPapers t => s.setTotalPapers t
  | .setTiming a b => s.setTiming a b
  | .setResources a b c d e f => s.setResources a b c d e f
  | .finalizeStats => s.finalizeStats

/-- A sequence of method calls applied to a `Statistics` instance in
order. -/
def runStatOps (s : Statistics) (ops : List StatOp) : Statistics :=
  ops.foldl applyStatOp s

/-- Number of `add_failed_paper` calls in a sequence of operations. -/
def countAddFailed (ops : List StatOp) : Nat :=
  (ops.filter fun o => match o with
    | .addFailedPaper _ => true
    | _ => false).length

/-- Number of `add_failed_paper` calls with the given kind. -/
def countAddFailedKind (k : String) (ops : List StatOp) : Nat :=
  (ops.filter fun o => match o with
    | .addFailedPaper t => t = k
    | _ => false).length

/-! ## Supporting lemmas -/

theorem pythonFormat05d_natCast (n : Nat) :
    pythonFormat05d (n : Int) = padZeros 5 (decimalString n) := by
  simp [pythonFormat05d]

theorem decChars_zero (f : Nat) : decChars f 0 = [] := by
  cases f <;> rfl

theorem length_decChars_le (k : Nat) :
    ∀ f v, v < 10 ^ k → (decChars f v).length ≤ k := by
  induction k with
  | zero =>
      intro f v hv
      have : v = 0 := by simpa using Nat.lt_one_iff.mp hv
      simp [this, decChars_zero]
  | succ k ih =>
      intro f v hv
      match f, v with
      | 0, _ => simp [decChars]
      | f + 1, 0 => simp [decChars]
      | f + 1, v + 1 =>
          have hd : (v + 1) / 10 < 10 ^ k := by
            rw [Nat.div_lt_iff_lt_mul (by norm_num)]
            calc v + 1 < 10 ^ (k + 1) := hv
            _ = 10 ^ k * 10 := by ring
          have := ih f ((v + 1) / 10) hd
          simp only [decChars, List.length_append, List.length_cons, List.length_nil]
          omega

theorem length_decimalString_le (n : Nat) (h : n < 100000) :
    (decimalString n).length ≤ 5 := by
  unfold decimalString
  rw [List.length_asString]
  exact length_decChars_le 5 n n (by norm_num [h])

theorem length_padZeros (w : Nat) (s : String) (h : s.length ≤ w) :
    (padZeros w s).length = w := by
  unfold padZeros
  split
  · rw [String.length_append, List.length_asString, List.length_replicate]
    omega
  · omega

theorem length_pythonFormat05d (n : Nat) (h : n < 100000) :
    (pythonFormat05d (n : Int)).length = 5 := by
  rw [pythonFormat05d_natCast]
  exact length_padZeros 5 _ (length_decimalString_le n h)

theorem pyRange_nat (s e : Nat) (h : s ≤ e) :
    pyRange (s : Int) ((e : Int) + 1) =
      (List.range (e - s + 1)).map (fun k => ((s + k : Nat) : Int)) := by
  unfold pyRange
  have ht : ((e : Int) + 1 - (s : Int)).toNat = e - s + 1 := by omega
  rw [ht]
  apply List.map_congr_left
  intro k _
  push_cast
  ring

theorem executeStep_sleep (t : RateLimiter) (now dur : ℚ) :
    ((t.executeStep now dur).1).sleepDuration =
      max 0 (t.wait_time - (now - t.last_call_time)) := by
  unfold RateLimiter.executeStep
  dsimp only
  split_ifs with h
  · rw [eq_comm, max_eq_right]; linarith
  · rw [eq_comm, max_eq_left]; linarith

theorem executeStep_start_ge (t : RateLimiter) (now dur : ℚ) :
    t.last_call_time + t.wait_time ≤ ((t.executeStep now dur).1).callStart := by
  unfold RateLimiter.executeStep
  dsimp only
  split_ifs with h
  · linarith
  · linarith

theorem executeStep_end_eq (t : RateLimiter) (now dur : ℚ) :
    ((t.executeStep now dur).1).callEnd = ((t.executeStep now dur).1).callStart + dur :=
  rfl

theorem executeStep_state_wait (t : RateLimiter) (now dur : ℚ) :
    ((t.executeStep now dur).2).wait_time = t.wait_time :=
  rfl

theorem executeStep_state_last (t : RateLimiter) (now dur : ℚ) :
    ((t.executeStep now dur).2).last_call_time = ((t.executeStep now dur).1).callEnd :=
  rfl

/-! ## Claims -/

/-- C3: under the lock of `RateLimiter.execute` the callers form a
serialized trace (`runLimiter`).  Along that trace: every caller's sleep
is exactly the part of `wait_time` not already elapsed since the
recorded completion time of the previous call (clamped at 0), each
call's start lies at least `wait_time` after the previous call's
recorded completion, and — when the previous call's duration is
non-negative — at least `wait_time` after the previous call's start, so
consecutive calls through one limiter are spaced by at least the
interval, for any number of callers. -/
theorem c3_rate_limiter_serialized_gap (s : RateLimiter) (calls : List (ℚ × ℚ)) :
    (∀ (t : RateLimiter) (now dur : ℚ),
      ((t.executeStep now dur).1).sleepDuration =
        max 0 (t.wait_time - (now - t.last_call_time))) ∧
    List.Chain' (fun ec1 ec2 =>
      ec1.1.callEnd + s.wait_time ≤ ec2.1.callStart ∧
      (0 ≤ ec1.2.2 → ec1.1.callStart + s.wait_time ≤ ec2.1.callStart) ∧
      ec2.1.sleepDuration = max 0 (s.wait_time - (ec2.2.1 - ec1.1.callEnd)))
      ((runLimiter s calls).zip calls) := by
  refine ⟨executeStep_sleep, ?_⟩
  induction calls generalizing s with
  | nil => simp [runLimiter]
  | cons c rest ih =>
    obtain ⟨now, dur⟩ := c
    simp only [runLimiter, List.zip_cons_cons]
    rw [List.chain'_cons']
    constructor
    · intro b hb
      cases rest with
      | nil => simp [runLimiter] at hb
      | cons c2 rest2 =>
        obtain ⟨now2, dur2⟩ := c2
        simp only [runLimiter, List.zip_cons_cons, List.head?_cons,
          Option.mem_def, Option.some.injEq] at hb
        subst hb
        have hlast := executeStep_state_last s now dur
        have hwait := executeStep_state_wait s now dur
        refine ⟨?_, ?_, ?_⟩
        · have := executeStep_start_ge ((s.executeStep now dur).2) now2 dur2
          rw [hlast, hwait] at this
          exact this
        · intro hdur
          have := executeStep_start_ge ((s.executeStep now dur).2) now2 dur2
          rw [hlast, hwait] at this
          have he := executeStep_end_eq s now dur
          linarith
        · have := executeStep_sleep ((s.executeStep now dur).2) now2 dur2
          rw [hlast, hwait] at this
          exact this
    · exact ih ((s.executeStep now dur).2)

/-- C7: the version date resolver returns either exactly
`version-count` dates or the empty list; a fetch error, a parse error,
or an extracted-date count different from `version-count` each yield the
empty list; and on the empty list the caller substitutes today's date
for every version. -/
theorem c7_version_date_resolver (dateFetch : Option (List String)) (n : Nat)
    (today : String) :
    ((getVersionDates dateFetch n).length = n ∨ getVersionDates dateFetch n = []) ∧
    (getVersionDates dateFetch n = [] →
      versionDatesWithFallback dateFetch n today = List.replicate n today) ∧
    (dateFetch = none → getVersionDates dateFetch n = []) ∧
    (∀ ds, dateFetch = some ds → ds.mapM parseArxivDate = none →
      getVersionDates dateFetch n = []) ∧
    (∀ ds dates, dateFetch = some ds → ds.mapM parseArxivDate = some dates →
      dates.length ≠ n → getVersionDates dateFetch n = []) := by
  refine ⟨?_, ?_, ?_, ?_, ?_⟩
  · unfold getVersionDates
    cases dateFetch with
    | none => exact Or.inr rfl
    | some ds =>
      dsimp only
      cases hm : ds.mapM parseArxivDate with
      | none => exact Or.inr rfl
      | some dates =>
        by_cases hl : dates.length = n
        · refine Or.inl ?_
          show (if dates.length = n then dates else []).length = n
          rw [if_pos hl]
          exact hl
        · refine Or.inr ?_
          show (if dates.length = n then dates else []) = []
          rw [if_neg hl]
  · intro h
    simp [versionDatesWithFallback, h]
  · intro h
    rw [h]
    rfl
  · intro ds hds hm
    subst hds
    unfold getVersionDates
    dsimp only
    rw [hm]
  · intro ds dates hds hm hl
    subst hds
    unfold getVersionDates
    dsimp only
    rw [hm]
    show (if dates.length = n then dates else []) = []
    rw [if_neg hl]

/-- Witness for C7: one date string scraped but two versions expected —
the resolver discards the partial match and the caller falls back to
today's date for both versions. -/
theorem c7_version_date_resolver_witness :
    versionDatesWithFallback (some ["Mon, 12 Jun 2017"]) 2 "2025-10-12" =
      ["2025-10-12", "2025-10-12"] := by
  have h := c7_version_date_resolver (some ["Mon, 12 Jun 2017"]) 2 "2025-10-12"
  have he : getVersionDates (some ["Mon, 12 Jun 2017"]) 2 = [] :=
    h.2.2.2.2 ["Mon, 12 Jun 2017"] ["2017-06-12"] rfl (by decide) (by decide)
  have := h.2.1 he
  simpa [List.replicate] using this

/-- C9: for identifiers `start = prefix.s` and `end = prefix.e` with
`s ≤ e` (both sequence numbers in the 5-digit range),
`generate_paper_ids` returns exactly `e − s + 1` identifiers; the `i`-th
is `prefix ++ "." ++ f"\x7bs+i:05d\x7d"`, a 5-character zero-padded
sequence part carrying `start`'s prefix, and the sequence numbers are
strictly increasing along the list. -/
theorem c9_generate_paper_ids_range (startId endId p : String) (s e : Nat)
    (hp : (pySplit startId '.').headD "" = p)
    (hs : pythonIntOfString ((pySplit startId '.').getD 1 "") = some (s : Int))
    (he : pythonIntOfString ((pySplit endId '.').getD 1 "") = some (e : Int))
    (hse : s ≤ e) (he5 : e < 100000) :
    ∃ l, generate_paper_ids startId endId = some l ∧
      l.length = e - s + 1 ∧
      (∀ i (hi : i < l.length),
        l.get ⟨i, hi⟩ = p ++ "." ++ pythonFormat05d ((s + i : Nat) : Int) ∧
        (pythonFormat05d ((s + i : Nat) : Int)).length = 5) ∧
      (∀ i j (hi : i < l.length) (hj : j < l.length), i < j →
        ∃ a b : Nat, l.get ⟨i, hi⟩ = p ++ "." ++ pythonFormat05d (a : Int) ∧
          l.get ⟨j, hj⟩ = p ++ "." ++ pythonFormat05d (b : Int) ∧ a < b) := by
  refine ⟨((List.range (e - s + 1)).map
    (fun k => p ++ "." ++ pythonFormat05d ((s + k : Nat) : Int))), ?_, ?_, ?_, ?_⟩
  · unfold generate_paper_ids
    rw [hs, he, hp]
    simp only [Option.some.injEq]
    rw [pyRange_nat s e hse, List.map_map]
    rfl
  · simp
  · intro i hi
    simp only [List.length_map, List.length_range] at hi
    constructor
    · simp [List.get_eq_getElem]
    · exact length_pythonFormat05d (s + i) (by omega)
  · intro i j hi hj hij
    simp only [List.length_map, List.length_range] at hi hj
    refine ⟨s + i, s + j, ?_, ?_, by omega⟩
    · simp [List.get_eq_getElem]
    · simp [List.get_eq_getElem]

/-- Witness for C9 at `start = "2311.05222"`, `end = "2311.05225"`. -/
theorem c9_generate_paper_ids_range_witness :
    ∃ l, generate_paper_ids "2311.05222" "2311.05225" = some l ∧ l.length = 4 := by
  obtain ⟨l, h1, h2, -, -⟩ := c9_generate_paper_ids_range "2311.05222" "2311.05225"
    "2311" 5222 5225 (by decide) (by decide) (by decide) (by omega) (by omega)
  exact ⟨l, h1, h2⟩

/-- An attempt result that is neither a 200 nor a 404 response: a raised
transport/timeout error, a 429, or any other status. -/
def attemptFails (a : SSAttempt) : Prop :=
  a = .error () ∨ ∃ resp, a = .ok resp ∧ resp.status ≠ 200 ∧ resp.status ≠ 404

theorem getReferencesGo_all_fail (attempts : Nat → SSAttempt) (maxRetries : Nat) :
    ∀ remaining attempt,
      (∀ i, attempt ≤ i → i < attempt + remaining → attemptFails (attempts i)) →
      getReferencesGo attempts maxRetries attempt remaining = ([], "", false) := by
  intro remaining
  induction remaining with
  | zero => intro attempt _; rfl
  | succ r ih =>
    intro attempt h
    have hcur := h attempt (le_refl _) (by omega)
    have hrest : ∀ i, attempt + 1 ≤ i → i < attempt + 1 + r → attemptFails (attempts i) :=
      fun i h1 h2 => h i (by omega) (by omega)
    rcases hcur with herr | ⟨resp, hok, h200, h404⟩
    · rw [getReferencesGo, herr]
      dsimp only
      split
      · exact ih (attempt + 1) hrest
      · rfl
    · rw [getReferencesGo, hok]
      dsimp only
      rw [if_neg h200]
      by_cases h429 : resp.status = 429
      · rw [if_pos h429]
        exact ih (attempt + 1) hrest
      · rw [if_neg h429, if_neg h404]
        split
        · exact ih (attempt + 1) hrest
        · rfl

theorem processPaperRun_ss_fail (env : PipelineEnv) (paper : Paper) (latest : Int)
    (hm : env.metadata = some paper)
    (hl : latestVersionOf paper.entryId = some latest)
    (hsz : (pipelineVersionTotals env latest).2.1 ≠ 0)
    (hss : (get_references env.ssAttempts env.maxRetries).2.2 = false) :
    processPaperRun env = (.semanticScholarError, true) := by
  unfold processPaperRun
  rw [hm]
  dsimp only
  rw [hl]
  dsimp only
  rw [if_neg hsz, hss]
  rfl

theorem processPaperRun_ss_ok (env : PipelineEnv) (paper : Paper) (latest : Int)
    (hm : env.metadata = some paper)
    (hl : latestVersionOf paper.entryId = some latest)
    (hsz : (pipelineVersionTotals env latest).2.1 ≠ 0)
    (refs : List SSRef) (venue : String)
    (hss : get_references env.ssAttempts env.maxRetries = (refs, venue, true)) :
    processPaperRun env =
      (.success (versionsList latest).length (pipelineVersionTotals env latest).1
        (pipelineVersionTotals env latest).2.1 (pipelineVersionTotals env latest).2.2.1
        (saveReferencesCount refs), true) := by
  unfold processPaperRun
  rw [hm]
  dsimp only
  rw [hl]
  dsimp only
  rw [if_neg hsz, hss]
  rfl

/-- C2 (as amended): when every attempt within `max_retries` fails —
whether by raising, by returning 429, or by returning any other
non-200/404 status — `_get_references` returns the one failure signal
`([], '', False)`, and `process_paper` maps it to the single error kind
`semantic_scholar_error`; exhausting retries on 429 is not reported
differently from any other exhaustion (no distinct rate-limit kind is
ever produced). -/
theorem c2_exhausted_retries_single_kind (env : PipelineEnv) (paper : Paper)
    (latest : Int)
    (hm : env.metadata = some paper)
    (hl : latestVersionOf paper.entryId = some latest)
    (hsz : (pipelineVersionTotals env latest).2.1 ≠ 0)
    (hfail : ∀ i, i < env.maxRetries → attemptFails (env.ssAttempts i)) :
    get_references env.ssAttempts env.maxRetries = ([], "", false) ∧
    processPaper env = .semanticScholarError := by
  have h1 : get_references env.ssAttempts env.maxRetries = ([], "", false) := by
    unfold get_references
    exact getReferencesGo_all_fail env.ssAttempts env.maxRetries env.maxRetries 0
      (fun i _ h2 => hfail i (by omega))
  refine ⟨h1, ?_⟩
  unfold processPaper
  rw [processPaperRun_ss_fail env paper latest hm hl hsz (by rw [h1])]

/-- The concrete run refuting C2 as stated: three attempts all rate
limited (HTTP 429). -/
def c2Env429 : PipelineEnv where
  metadata := some ⟨"http://arxiv.org/abs/2311.05222v1"⟩
  dateFetch := none
  today := "2025-10-12"
  versionEnv := fun _ => ⟨.response 200 100, .ok 50⟩
  ssAttempts := fun _ => .ok ⟨429, [], ""⟩
  maxRetries := 3

/-- The same run with the three attempts failing with HTTP 500
instead. -/
def c2Env500 : PipelineEnv where
  metadata := some ⟨"http://arxiv.org/abs/2311.05222v1"⟩
  dateFetch := none
  today := "2025-10-12"
  versionEnv := fun _ => ⟨.response 200 100, .ok 50⟩
  ssAttempts := fun _ => .ok ⟨500, [], ""⟩
  maxRetries := 3

/-- Counterexample to C2 as stated: exhausting all retries on 429
produces the outcome `semantic_scholar_error` — exactly the same kind
as exhausting them on other statuses — so no distinct
`RateLimitExceeded` kind is reported (the `api_rate_limit` counter of
statistics.py is never incremented by any code path). -/
theorem c2_counterexample :
    processPaper c2Env429 = .semanticScholarError ∧
    processPaper c2Env500 = .semanticScholarError := by
  exact ⟨by decide, by decide⟩

/-- Witness for C2's theorem: a run whose three attempts are a raised
transport error, a 429, and a 500. -/
def c2WitnessEnv : PipelineEnv where
  metadata := some ⟨"http://arxiv.org/abs/2311.05222v1"⟩
  dateFetch := none
  today := "2025-10-12"
  versionEnv := fun _ => ⟨.response 200 100, .ok 50⟩
  ssAttempts := fun i => if i = 0 then .error () else if i = 1 then .ok ⟨429, [], ""⟩
    else .ok ⟨500, [], ""⟩
  maxRetries := 3

theorem c2_exhausted_retries_single_kind_witness :
    processPaper c2WitnessEnv = .semanticScholarError := by
  refine (c2_exhausted_retries_single_kind c2WitnessEnv
    ⟨"http://arxiv.org/abs/2311.05222v1"⟩ 1 rfl (by decide) (by decide) ?_).2
  intro i hi
  match i, hi with
  | 0, _ => exact Or.inl rfl
  | 1, _ => exact Or.inr ⟨⟨429, [], ""⟩, rfl, by decide, by decide⟩
  | 2, _ => exact Or.inr ⟨⟨500, [], ""⟩, rfl, by decide, by decide⟩

/-- C5: a 404 from the citation-graph API is success with empty
references and venue, returned immediately from the first attempt (no
retry — the result is the same whatever the later attempts would
return), and the pipeline can then still conclude `Success` with a
reference count of zero. -/
theorem c5_404_empty_success (env : PipelineEnv) (resp : SSResponse)
    (hmr : 1 ≤ env.maxRetries)
    (h0 : env.ssAttempts 0 = .ok resp)
    (h404 : resp.status = 404) :
    get_references env.ssAttempts env.maxRetries = ([], "", true) ∧
    (∀ paper latest, env.metadata = some paper →
      latestVersionOf paper.entryId = some latest →
      (pipelineVersionTotals env latest).2.1 ≠ 0 →
      processPaper env =
        .success (versionsList latest).length (pipelineVersionTotals env latest).1
          (pipelineVersionTotals env latest).2.1
          (pipelineVersionTotals env latest).2.2.1 0) := by
  have h1 : get_references env.ssAttempts env.maxRetries = ([], "", true) := by
    obtain ⟨k, hk⟩ : ∃ k, env.maxRetries = k + 1 := ⟨env.maxRetries - 1, by omega⟩
    unfold get_references
    rw [hk, getReferencesGo, h0]
    dsimp only
    rw [h404]
    norm_num
  refine ⟨h1, ?_⟩
  intro paper latest hm hl hsz
  unfold processPaper
  rw [processPaperRun_ss_ok env paper latest hm hl hsz [] "" h1]
  rfl

/-- Witness environment for C5: one version, citation API answering
404 on the first attempt. -/
def c5WitnessEnv : PipelineEnv where
  metadata := some ⟨"http://arxiv.org/abs/2311.05222v1"⟩
  dateFetch := none
  today := "2025-10-12"
  versionEnv := fun _ => ⟨.response 200 100, .ok 50⟩
  ssAttempts := fun _ => .ok ⟨404, [], ""⟩
  maxRetries := 3

theorem c5_404_empty_success_witness :
    processPaper c5WitnessEnv = .success 1 100 50 150 0 := by
  have h := c5_404_empty_success c5WitnessEnv ⟨404, [], ""⟩ (by decide) rfl rfl
  exact h.2 ⟨"http://arxiv.org/abs/2311.05222v1"⟩ 1 rfl (by decide) (by decide)

/-- The run refuting C1 as stated: metadata reports 4 versions;
versions 1–3 download (100 compressed → 50 extracted bytes each) and
version 4 fails with HTTP 500; the citation stage succeeds with no
references. -/
def c1Env : PipelineEnv where
  metadata := some ⟨"http://arxiv.org/abs/2311.05222v4"⟩
  dateFetch := none
  today := "2025-10-12"
  versionEnv := fun v => if v = 4 then ⟨.response 500 0, .error ()⟩
    else ⟨.response 200 100, .ok 50⟩
  ssAttempts := fun _ => .ok ⟨200, [], ""⟩
  maxRetries := 3

/-- Counterexample to C1 as stated: with 3 of 4 versions downloaded
successfully the outcome is the success dict (its `versions` field even
reporting the expected 4), not a `MissingVersions{expected:4, got:3}`
partial failure — `process_paper` never checks how many loop iterations
succeeded, the `Outcome` type of the code has no missing-versions
variant, and the `missing_versions` counter of statistics.py is never
incremented. -/
theorem c1_counterexample :
    processPaper c1Env = .success 4 300 150 150 0 := by
  decide

/-- C1 (as amended): whenever the total extracted size over all
versions is nonzero and the citation stage succeeds, the pipeline
returns `Success` — regardless of how many individual versions failed
to download; the partial-failure classification the spec describes does
not exist, and the `versions` field of the success dict is always the
expected count `N`, not the number of versions actually downloaded. -/
theorem c1_partial_download_still_success (env : PipelineEnv) (paper : Paper)
    (latest : Int) (refs : List SSRef) (venue : String)
    (hm : env.metadata = some paper)
    (hl : latestVersionOf paper.entryId = some latest)
    (hsz : (pipelineVersionTotals env latest).2.1 ≠ 0)
    (hss : get_references env.ssAttempts env.maxRetries = (refs, venue, true)) :
    processPaper env =
      .success (versionsList latest).length (pipelineVersionTotals env latest).1
        (pipelineVersionTotals env latest).2.1 (pipelineVersionTotals env latest).2.2.1
        (saveReferencesCount refs) := by
  unfold processPaper
  rw [processPaperRun_ss_ok env paper latest hm hl hsz refs venue hss]

/-- Witness for C1's amended theorem at the 3-of-4 run. -/
theorem c1_partial_download_still_success_witness :
    processPaper c1Env = .success (versionsList 4).length
      (pipelineVersionTotals c1Env 4).1 (pipelineVersionTotals c1Env 4).2.1
      (pipelineVersionTotals c1Env 4).2.2.1 (saveReferencesCount []) := by
  exact c1_partial_download_still_success c1Env ⟨"http://arxiv.org/abs/2311.05222v4"⟩
    4 [] "" rfl (by decide) (by decide) (by decide)

/-- C4: when the total extracted size over all versions is zero,
`process_paper` returns `no_tex_source_pdf_only` without ever reaching
the `_get_references` call (the instrumentation bit is `false`), and
the outcome is the same whatever the citation attempts and retry budget
would have been. -/
theorem c4_zero_extracted_no_success (env : PipelineEnv) (paper : Paper)
    (latest : Int)
    (hm : env.metadata = some paper)
    (hl : latestVersionOf paper.entryId = some latest)
    (hsz : (pipelineVersionTotals env latest).2.1 = 0) :
    processPaperRun env = (.noTexSourcePdfOnly, false) ∧
    ∀ attempts mr,
      processPaperRun { env with ssAttempts := attempts, maxRetries := mr } =
        (.noTexSourcePdfOnly, false) := by
  have base : ∀ env' : PipelineEnv, env'.metadata = some paper →
      latestVersionOf paper.entryId = some latest →
      (pipelineVersionTotals env' latest).2.1 = 0 →
      processPaperRun env' = (.noTexSourcePdfOnly, false) := by
    intro env' hm' hl' hsz'
    unfold processPaperRun
    rw [hm']
    dsimp only
    rw [hl']
    dsimp only
    rw [if_pos hsz']
  refine ⟨base env hm hl hsz, ?_⟩
  intro attempts mr
  exact base { env with ssAttempts := attempts, maxRetries := mr } hm hl hsz

/-- Witness environment for C4: two versions, the first failing with a
transport error, the second downloading but extracting zero retained
bytes; the citation stub would answer 200. -/
def c4WitnessEnv : PipelineEnv where
  metadata := some ⟨"http://arxiv.org/abs/2311.05222v2"⟩
  dateFetch := none
  today := "2025-10-12"
  versionEnv := fun v => if v = 1 then ⟨.netError, .ok 0⟩ else ⟨.response 200 100, .ok 0⟩
  ssAttempts := fun _ => .ok ⟨200, [⟨some "1706.03762", "t", ["a"], "2017-06-12", "x"⟩], "NeurIPS"⟩
  maxRetries := 3

theorem c4_zero_extracted_no_success_witness :
    processPaperRun c4WitnessEnv = (.noTexSourcePdfOnly, false) := by
  exact (c4_zero_extracted_no_success c4WitnessEnv ⟨"http://arxiv.org/abs/2311.05222v2"⟩
    2 rfl (by decide) (by decide)).1

/-- The run refuting C6 as stated: the canonical entry reference
`http://arxiv.org/abs/2311.05222` has no trailing version suffix, but
it does contain the character `'v'` (inside "arxiv"). -/
def c6Env : PipelineEnv where
  metadata := some ⟨"http://arxiv.org/abs/2311.05222"⟩
  dateFetch := none
  today := "2025-10-12"
  versionEnv := fun _ => ⟨.response 200 100, .ok 50⟩
  ssAttempts := fun _ => .ok ⟨200, [], ""⟩
  maxRetries := 3

/-- Counterexample to C6 as stated: for a canonical entry reference
lacking a version suffix, `'v' in entry_id` is still true (the URL
contains "arxiv"), so the code runs
`int(entry_id.split('v')[-1]) = int(".org/abs/2311.05222")`, the
`ValueError` reaches the outer handler, and the pipeline fails with
`network_error` instead of proceeding with one version. -/
theorem c6_counterexample :
    latestVersionOf "http://arxiv.org/abs/2311.05222" = none ∧
    processPaperRun c6Env = (.networkError intParseErrorMsg, false) := by
  exact ⟨by decide, by decide⟩

/-- C6 (as amended): the default of 1 applies only when the entry
reference contains no `'v'` character at all, in which case the
pipeline proceeds with exactly one version; when the reference contains
a `'v'`, the text after the last `'v'` is parsed as the version number,
and if that parse fails the pipeline fails with `network_error` (it
does not fall back to one version). -/
theorem c6_version_suffix_default (env : PipelineEnv) (paper : Paper)
    (hm : env.metadata = some paper) :
    (paper.entryId.data.contains 'v' = false →
      latestVersionOf paper.entryId = some 1 ∧ versionsList 1 = [1]) ∧
    (∀ n : Int, paper.entryId.data.contains 'v' = true →
      pythonIntOfString ((pySplit paper.entryId 'v').getLastD "") = some n →
      latestVersionOf paper.entryId = some n) ∧
    (paper.entryId.data.contains 'v' = true →
      pythonIntOfString ((pySplit paper.entryId 'v').getLastD "") = none →
      processPaperRun env = (.networkError intParseErrorMsg, false)) := by
  refine ⟨?_, ?_, ?_⟩
  · intro hc
    constructor
    · unfold latestVersionOf
      rw [hc]
      rfl
    · rfl
  · intro n hc hparse
    unfold latestVersionOf
    rw [hc]
    simpa using hparse
  · intro hc hparse
    have hnone : latestVersionOf paper.entryId = none := by
      unfold latestVersionOf
      rw [hc]
      simpa using hparse
    unfold processPaperRun
    rw [hm]
    dsimp only
    rw [hnone]

/-- Witness environment for C6's amended theorem: an entry reference
with no `'v'` at all. -/
def c6WitnessEnv : PipelineEnv where
  metadata := some ⟨"2311.05222"⟩
  dateFetch := none
  today := "2025-10-12"
  versionEnv := fun _ => ⟨.response 200 100, .ok 50⟩
  ssAttempts := fun _ => .ok ⟨200, [], ""⟩
  maxRetries := 3

theorem c6_version_suffix_default_witness :
    latestVersionOf "2311.05222" = some 1 := by
  exact ((c6_version_suffix_default c6WitnessEnv ⟨"2311.05222"⟩ rfl).1 (by decide)).1

/-- Counterexample to C8 as stated: HTTP 200 delivers a 1234-byte
archive, it is written to the scratch path, and `_extract_filtered`
raises — the function re-raises without deleting the scratch file
(scraper.py has no `finally`; the `os.remove` at line 253 is on the
success path only), so the scratch archive is still on disk when the
call returns. -/
theorem c8_counterexample :
    (downloadAndExtractVersion ⟨.response 200 1234, .error ()⟩
      "2017-06-12" "2025-10-12").1 = .error () ∧
    (downloadAndExtractVersion ⟨.response 200 1234, .error ()⟩
      "2017-06-12" "2025-10-12").2 = true :=
  ⟨rfl, rfl⟩

/-- C8 (as amended): the scratch archive is deleted before returning on
the success path; when the download itself fails (transport error or
non-200 status) no scratch file was written; but when extraction fails
after the archive was written, the scratch file is left behind. -/
theorem c8_scratch_cleanup (env : VersionEnv) (versionDate today : String) :
    (∀ r, (downloadAndExtractVersion env versionDate today).1 = .ok r →
      (downloadAndExtractVersion env versionDate today).2 = false) ∧
    (env.fetch = .netError → (downloadAndExtractVersion env versionDate today).2 = false) ∧
    (∀ status len, env.fetch = .response status len → status ≠ 200 →
      (downloadAndExtractVersion env versionDate today).2 = false) ∧
    (∀ len, env.fetch = .response 200 len → env.extractOutcome = .error () →
      (downloadAndExtractVersion env versionDate today).2 = true) := by
  obtain ⟨fetch, extract⟩ := env
  refine ⟨?_, ?_, ?_, ?_⟩
  · intro r hok
    cases fetch with
    | netError => rfl
    | response status len =>
      unfold downloadAndExtractVersion at hok ⊢
      dsimp only at hok ⊢
      by_cases hst : status ≠ 200
      · rw [if_pos hst]
      · rw [if_neg hst] at hok ⊢
        cases extract with
        | error e => simp at hok
        | ok sz => rfl
  · intro hf
    cases fetch with
    | netError => rfl
    | response status len => exact absurd hf (by simp)
  · intro status len hf hst
    cases fetch with
    | netError => rfl
    | response st ln =>
      obtain ⟨rfl, rfl⟩ : st = status ∧ ln = len := by
        injection hf with h1 h2
        exact ⟨h1, h2⟩
      unfold downloadAndExtractVersion
      dsimp only
      rw [if_pos hst]
  · intro len hf hex
    cases fetch with
    | netError => exact absurd hf (by simp)
    | response st ln =>
      obtain ⟨rfl, rfl⟩ : st = 200 ∧ ln = len := by
        injection hf with h1 h2
        exact ⟨h1, h2⟩
      cases extract with
      | error e => rfl
      | ok sz => exact absurd hex (by simp)

/-- Witness for C8's amended theorem: the success path deletes the
scratch archive. -/
theorem c8_scratch_cleanup_witness :
    (downloadAndExtractVersion ⟨.response 200 100, .ok 50⟩ "2017-06-12" "2025-10-12").2 =
      false := by
  exact (c8_scratch_cleanup ⟨.response 200 100, .ok 50⟩ "2017-06-12" "2025-10-12").1
    (100, 50, "2017-06-12", 150) rfl

theorem bump_not_mem (b : ErrorBreakdown) (t : String) (h : t ∉ errorKeys) :
    b.bump t = b := by
  simp only [errorKeys, List.mem_cons, List.not_mem_nil, or_false, not_or] at h
  obtain ⟨h1, h2, h3, h4, h5, h6, h7, h8, h9⟩ := h
  unfold ErrorBreakdown.bump
  rw [if_neg h1, if_neg h2, if_neg h3, if_neg h4, if_neg h5, if_neg h6, if_neg h7,
    if_neg h8, if_neg h9]

theorem getKey_bump (b : ErrorBreakdown) (t k : String) (hk : k ∈ errorKeys) :
    (b.bump t).getKey k = b.getKey k + (if t = k then 1 else 0) := by
  by_cases hmem : t ∈ errorKeys
  · fin_cases hmem <;> fin_cases hk <;>
      simp [ErrorBreakdown.bump, ErrorBreakdown.getKey]
  · have hne : t ≠ k := fun hc => hmem (hc ▸ hk)
    rw [bump_not_mem b t hmem, if_neg hne]
    omega

theorem bump_total_le (b : ErrorBreakdown) (t : String) :
    (b.bump t).total ≤ b.total + 1 := by
  unfold ErrorBreakdown.bump
  split_ifs <;> simp [ErrorBreakdown.total] <;> omega

theorem getKey_init (k : String) : ErrorBreakdown.init.getKey k = 0 := by
  unfold ErrorBreakdown.getKey ErrorBreakdown.init
  split_ifs <;> rfl

theorem finalizeStats_counters (s : Statistics) :
    (s.finalizeStats).failed_papers = s.failed_papers ∧
    (s.finalizeStats).error_breakdown = s.error_breakdown := by
  simp only [Statistics.finalizeStats]
  split_ifs <;> exact ⟨rfl, rfl⟩

theorem applyStatOp_failed (s : Statistics) (op : StatOp) :
    (applyStatOp s op).failed_papers =
      s.failed_papers + (if (match op with
        | .addFailedPaper _ => true
        | _ => false) then 1 else 0) := by
  cases op with
  | finalizeStats => simp [applyStatOp, (finalizeStats_counters s).1]
  | _ => rfl

theorem applyStatOp_breakdown (s : Statistics) (op : StatOp) :
    (applyStatOp s op).error_breakdown =
      match op with
      | .addFailedPaper t => s.error_breakdown.bump t
      | _ => s.error_breakdown := by
  cases op with
  | finalizeStats => simp [applyStatOp, (finalizeStats_counters s).2]
  | _ => rfl

theorem runStatOps_failed (ops : List StatOp) :
    ∀ s : Statistics, (runStatOps s ops).failed_papers =
      s.failed_papers + countAddFailed ops := by
  induction ops with
  | nil => intro s; simp [runStatOps, countAddFailed]
  | cons op rest ih =>
    intro s
    have h1 : runStatOps s (op :: rest) = runStatOps (applyStatOp s op) rest := rfl
    rw [h1, ih, applyStatOp_failed]
    cases op <;> first
      | (simp [countAddFailed, List.filter_cons]; omega)
      | simp [countAddFailed, List.filter_cons]

theorem runStatOps_getKey (ops : List StatOp) (k : String) (hk : k ∈ errorKeys) :
    ∀ s : Statistics, ((runStatOps s ops).error_breakdown).getKey k =
      s.error_breakdown.getKey k + countAddFailedKind k ops := by
  induction ops with
  | nil => intro s; simp [runStatOps, countAddFailedKind]
  | cons op rest ih =>
    intro s
    have h1 : runStatOps s (op :: rest) = runStatOps (applyStatOp s op) rest := rfl
    rw [h1, ih, applyStatOp_breakdown]
    cases op with
    | addFailedPaper t =>
      rw [getKey_bump _ t k hk]
      by_cases ht : t = k
      · simp [countAddFailedKind, List.filter_cons, ht]
        omega
      · simp [countAddFailedKind, List.filter_cons, ht]
    | addSuccessfulPaper v sb sa r time p =>
      simp [countAddFailedKind, List.filter_cons]
    | setTotalPapers n => simp [countAddFailedKind, List.filter_cons]
    | setTiming a b => simp [countAddFailedKind, List.filter_cons]
    | setResources a b c d e f => simp [countAddFailedKind, List.filter_cons]
    | finalizeStats => simp [countAddFailedKind, List.filter_cons]

theorem runStatOps_total_le (ops : List StatOp) :
    ∀ s : Statistics, s.error_breakdown.total ≤ s.failed_papers →
      (runStatOps s ops).error_breakdown.total ≤ (runStatOps s ops).failed_papers := by
  induction ops with
  | nil => intro s h; simpa [runStatOps] using h
  | cons op rest ih =>
    intro s h
    have h1 : runStatOps s (op :: rest) = runStatOps (applyStatOp s op) rest := rfl
    rw [h1]
    apply ih
    cases op with
    | addFailedPaper t =>
      have hb := bump_total_le s.error_breakdown t
      have hf : (applyStatOp s (.addFailedPaper t)).failed_papers = s.failed_papers + 1 := rfl
      have he : (applyStatOp s (.addFailedPaper t)).error_breakdown =
        s.error_breakdown.bump t := rfl
      rw [hf, he]
      omega
    | addSuccessfulPaper v sb sa r time p => exact h
    | setTotalPapers n => exact h
    | setTiming a b => exact h
    | setResources a b c d e f => exact h
    | finalizeStats =>
      have := finalizeStats_counters s
      rw [applyStatOp, this.1, this.2]
      exact h

/-- C10: over any sequence of `Statistics` method calls starting from a
fresh instance, `failed_papers` equals the number of
`add_failed_paper` calls; each of the nine predefined
`error_breakdown` entries equals the number of `add_failed_paper` calls
with exactly that kind (a call with any other kind increments no
entry); hence the sum of all breakdown entries never exceeds
`failed_papers`. -/
theorem c10_statistics_invariant (ops : List StatOp) :
    (runStatOps Statistics.init ops).failed_papers = countAddFailed ops ∧
    (∀ k, k ∈ errorKeys →
      ((runStatOps Statistics.init ops).error_breakdown).getKey k =
        countAddFailedKind k ops) ∧
    (runStatOps Statistics.init ops).error_breakdown.total ≤
      (runStatOps Statistics.init ops).failed_papers := by
  refine ⟨?_, ?_, ?_⟩
  · rw [runStatOps_failed ops Statistics.init]
    simp [Statistics.init]
  · intro k hk
    rw [runStatOps_getKey ops k hk Statistics.init]
    have h0 : Statistics.init.error_breakdown.getKey k = 0 := getKey_init k
    omega
  · exact runStatOps_total_le ops Statistics.init (by decide)

/-- Witness for C10: two failures, one with the predefined kind
`network_error` and one with an unknown kind — `failed_papers` is 2,
the `network_error` entry is 1, the unknown kind incremented nothing. -/
theorem c10_statistics_invariant_witness :
    (runStatOps Statistics.init
        [.addFailedPaper "network_error", .addFailedPaper "bogus_kind"]).failed_papers = 2 ∧
    ((runStatOps Statistics.init
        [.addFailedPaper "network_error", .addFailedPaper "bogus_kind"]).error_breakdown).getKey
      "network_error" = 1 ∧
    ((runStatOps Statistics.init
        [.addFailedPaper "network_error", .addFailedPaper "bogus_kind"]).error_breakdown).total ≤
      (runStatOps Statistics.init
        [.addFailedPaper "network_error", .addFailedPaper "bogus_kind"]).failed_papers := by
  have h := c10_statistics_invariant
    [.addFailedPaper "network_error", .addFailedPaper "bogus_kind"]
  refine ⟨?_, ?_, h.2.2⟩
  · rw [h.1]
    rfl
  · rw [h.2.1 "network_error" (by decide)]
    rfl

end Crawler
